import Mathlib

/-!
Verification of the resilient synchronization client (the useAnalysis hook):
a shallow embedding of its reconciled view state, fetch handlers, SSE event
handlers, polling control and lifecycle, together with theorems about the
behaviours the design document describes.

Numbers carried by records are embedded as Nat (identifiers, timestamps in
milliseconds) and Rat (scores and confidences). Timer handles are embedded
as booleans recording whether the timer is armed; the EventSource handle as
a boolean recording whether a stream object is open.
-/

namespace TrumpDump

/-- Per-horizon move estimate attached to a ticker impact. -/
structure MoveEstimate where
  horizon : String
  expected_pct_range : String
deriving DecidableEq

/-- One per-ticker impact entry of an analysis record. -/
structure TickerImpact where
  ticker_or_etf : String
  direction_up_down_mixed : String
  mechanism : String
  confidence_0_1 : Rat
  conservative_move : Option MoveEstimate
  aggressive_move : Option MoveEstimate
deriving DecidableEq

/-- One per-sector impact entry of an analysis record. -/
structure VerticalImpact where
  vertical : String
  rationale : String
  confidence_0_1 : Rat
deriving DecidableEq

/-- Embedded source-post summary. -/
structure PostInfo where
  id : Nat
  url : String
  title : Option String
  content_preview : Option String
  content : Option String
deriving DecidableEq

/-- The analysis record served by the pull endpoints (LatestAnalysis). -/
structure LatestAnalysis where
  id : Nat
  post_id : Nat
  post : Option PostInfo
  created_at_utc : Nat
  relevance_score : Rat
  top_vertical : Option String
  top_vertical_conf : Option Rat
  verticals : List VerticalImpact
  tickers : List TickerImpact
  base_case_summary : Option String
  conservative_case_summary : Option String
  aggressive_case_summary : Option String
deriving DecidableEq

/-- Payload of a server-push analysis event (SSEAnalysisEvent): the record
minus its creation timestamp, which the client stamps on receipt. -/
structure SSEAnalysisEvent where
  id : Nat
  post_id : Nat
  relevance_score : Rat
  top_vertical : Option String
  top_vertical_conf : Option Rat
  post : Option PostInfo
  verticals : List VerticalImpact
  tickers : List TickerImpact
  base_case_summary : Option String
deriving DecidableEq

/-- The hook state: the reconciled view (analysis, lastImpactful, loading,
error, isLive, lastUpdated) plus the mutable refs (interval handles, retry
counter, reconnect timer, stream handle) and the mounted flag of the
controller effect. lastUpdated is a receipt time in milliseconds. -/
structure HookState where
  analysis : Option LatestAnalysis
  lastImpactful : Option LatestAnalysis
  loading : Bool
  error : Option String
  isLive : Bool
  lastUpdated : Option Nat
  pollArmed : Bool
  safetyPollArmed : Bool
  reconnectAttempts : Nat
  reconnectTimeoutArmed : Bool
  eventSourceOpen : Bool
  mounted : Bool
deriving DecidableEq

/-- 30 seconds fallback polling period, in milliseconds. -/
def POLL_INTERVAL : Nat := 30000

/-- 60 seconds safety net polling period, in milliseconds. -/
def SAFETY_POLL_INTERVAL : Nat := 60000

/-- 30 seconds cap on the exponential backoff delay, in milliseconds. -/
def MAX_RECONNECT_DELAY : Nat := 30000

/-- 1 second initial reconnect delay, in milliseconds. -/
def INITIAL_RECONNECT_DELAY : Nat := 1000

/-- getReconnectDelay: the exponential backoff delay computed from the
current value of the reconnect attempt counter. -/
def getReconnectDelay (attempts : Nat) : Nat :=
  min MAX_RECONNECT_DELAY (INITIAL_RECONNECT_DELAY * 2 ^ attempts)

/-- Outcome of one GET /latest pull, as classified by fetchLatest: a 404
response, a non-ok response (status and status text), a transport failure
(the thrown error message), a body that fails to parse, or a record. -/
inductive PullResult where
  | notFound
  | httpError (status : Nat) (statusText : String)
  | networkError (message : String)
  | malformedBody (message : String)
  | success (data : LatestAnalysis)
deriving DecidableEq

/-- fetchLatest: applies the outcome of one GET /latest pull to the state.
secondaryRes is the result of the GET /latest-with-tickers call issued in
the empty-tickers branch (fetchLatestWithTickers maps its own 404, non-ok
and thrown cases to null, hence an Option). now is the receipt time in
milliseconds. The second component counts the fetchLatestWithTickers calls
issued. -/
def fetchLatestRun (s : HookState) (res : PullResult)
    (secondaryRes : Option LatestAnalysis) (now : Nat) : HookState × Nat :=
  match res with
  | .notFound => ({ s with analysis := none, error := none }, 0)
  | .httpError status statusText =>
      ({ s with error := some ("HTTP " ++ toString status ++ ": " ++ statusText) }, 0)
  | .networkError message => ({ s with error := some message }, 0)
  | .malformedBody message => ({ s with error := some message }, 0)
  | .success data =>
      let s1 := { s with analysis := some data, error := none, lastUpdated := some now }
      if data.tickers = [] then
        match secondaryRes with
        | some impactful =>
            if impactful.id ≠ data.id then ({ s1 with lastImpactful := some impactful }, 1)
            else ({ s1 with lastImpactful := none }, 1)
        | none => ({ s1 with lastImpactful := none }, 1)
      else
        ({ s1 with lastImpactful := none }, 0)

/-- The state after one fetchLatest completion. -/
def fetchLatestState (s : HookState) (res : PullResult)
    (secondaryRes : Option LatestAnalysis) (now : Nat) : HookState :=
  (fetchLatestRun s res secondaryRes now).1

/-- Conversion of an SSE analysis event payload to a LatestAnalysis,
stamping created_at_utc with the floor of the receipt time in seconds. -/
def sseToLatest (data : SSEAnalysisEvent) (now : Nat) : LatestAnalysis :=
  { id := data.id
    post_id := data.post_id
    post := data.post
    created_at_utc := now / 1000
    relevance_score := data.relevance_score
    top_vertical := data.top_vertical
    top_vertical_conf := data.top_vertical_conf
    verticals := data.verticals
    tickers := data.tickers
    base_case_summary := data.base_case_summary
    conservative_case_summary := none
    aggressive_case_summary := none }

/-- The continuation attached to the fetchLatestWithTickers promise in the
analysis event listener: sets lastImpactful only when a record arrived and
its id differs from the id of the analysis just applied; otherwise it
leaves the state unchanged. -/
def onAnalysisThen (s : HookState) (newAnalysisId : Nat)
    (impactful : Option LatestAnalysis) : HookState :=
  match impactful with
  | some i => if i.id ≠ newAnalysisId then { s with lastImpactful := some i } else s
  | none => s

/-- The analysis event listener: applies a pushed record, then either
issues one fetchLatestWithTickers (empty tickers; secondaryRes is its
result, applied through onAnalysisThen) or clears lastImpactful (non-empty
tickers). The second component counts the fetchLatestWithTickers calls
issued. -/
def onAnalysisRun (s : HookState) (data : SSEAnalysisEvent) (now : Nat)
    (secondaryRes : Option LatestAnalysis) : HookState × Nat :=
  let newAnalysis := sseToLatest data now
  let s1 := { s with analysis := some newAnalysis, lastUpdated := some now, error := none }
  if newAnalysis.tickers = [] then
    (onAnalysisThen s1 newAnalysis.id secondaryRes, 1)
  else
    ({ s1 with lastImpactful := none }, 0)

/-- The state after one analysis push event, its conditional secondary
fetch included. -/
def onAnalysisFull (s : HookState) (data : SSEAnalysisEvent) (now : Nat)
    (secondaryRes : Option LatestAnalysis) : HookState :=
  (onAnalysisRun s data now secondaryRes).1

/-- The connected event listener: marks the view live, resets the
reconnect attempt counter, and stops fallback polling. -/
def onConnected (s : HookState) : HookState :=
  { s with isLive := true, reconnectAttempts := 0, pollArmed := false }

/-- The stream onerror handler: marks the view not live, closes the stream
object, starts fallback polling, and schedules a reconnect (incrementing
the attempt counter after reading the delay). -/
def onSSEError (s : HookState) : HookState :=
  { s with isLive := false, eventSourceOpen := false, pollArmed := true,
           reconnectAttempts := s.reconnectAttempts + 1, reconnectTimeoutArmed := true }

/-- connectSSE: clears any pending reconnect timer, closes any existing
stream object, then opens a new one; when the EventSource constructor
throws (createOk = false) it starts fallback polling instead. -/
def connectSSEStep (s : HookState) (createOk : Bool) : HookState :=
  let s1 := { s with reconnectTimeoutArmed := false, eventSourceOpen := false }
  if createOk then { s1 with eventSourceOpen := true }
  else { s1 with pollArmed := true }

/-- The effect cleanup at unmount: clears the mounted flag, closes the
stream object, cancels the pending reconnect timer, and stops both the
fallback and the safety net polling loops. -/
def teardownStep (s : HookState) : HookState :=
  { s with mounted := false, eventSourceOpen := false, reconnectTimeoutArmed := false,
           pollArmed := false, safetyPollArmed := false }

/-- The state held by the hook before its initial effect runs. -/
def initialState : HookState :=
  { analysis := none, lastImpactful := none, loading := true, error := none,
    isLive := false, lastUpdated := none, pollArmed := false, safetyPollArmed := false,
    reconnectAttempts := 0, reconnectTimeoutArmed := false, eventSourceOpen := false,
    mounted := true }

/-- The init function of the mount effect: sets loading, awaits one
fetchLatest, and only when still mounted clears loading, calls connectSSE
and arms the safety net polling loop. -/
def initRun (s : HookState) (res : PullResult) (secondaryRes : Option LatestAnalysis)
    (now : Nat) (createOk : Bool) : HookState :=
  let s1 := fetchLatestState { s with loading := true } res secondaryRes now
  if s1.mounted then
    { (connectSSEStep s1 createOk) with loading := false, safetyPollArmed := true }
  else s1

/-- The callback of the fallback polling interval: one fetchLatest. -/
def fallbackTick (s : HookState) (res : PullResult)
    (secondaryRes : Option LatestAnalysis) (now : Nat) : HookState :=
  fetchLatestState s res secondaryRes now

/-- The callback of the safety net polling interval: one fetchLatest. -/
def safetyTick (s : HookState) (res : PullResult)
    (secondaryRes : Option LatestAnalysis) (now : Nat) : HookState :=
  fetchLatestState s res secondaryRes now

/-- The states the controller can reach: the initial effect runs first;
afterwards pull completions may arrive at any time (the two polling loops
and late completions), stream events only while a stream object is open,
and a reconnect only while the reconnect timer is pending; teardown may
happen at any time. A malformed push payload is dropped without touching
the state, so it needs no constructor. -/
inductive Reachable : HookState → Prop where
  | start : ∀ res sec now ok, Reachable (initRun initialState res sec now ok)
  | pull : ∀ {s} res sec now, Reachable s →
      Reachable (fetchLatestState s res sec now)
  | connected : ∀ {s}, Reachable s → s.eventSourceOpen = true →
      Reachable (onConnected s)
  | analysisEv : ∀ {s} data now sec, Reachable s → s.eventSourceOpen = true →
      Reachable (onAnalysisFull s data now sec)
  | sseErr : ∀ {s}, Reachable s → s.eventSourceOpen = true →
      Reachable (onSSEError s)
  | reconnect : ∀ {s} ok, Reachable s → s.reconnectTimeoutArmed = true →
      Reachable (connectSSEStep s ok)
  | teardown : ∀ {s}, Reachable s → Reachable (teardownStep s)

/-- Connectivity invariant: fallback polling runs only while not live, a
pending reconnect implies not live, and a pending reconnect implies the
stream object is closed. -/
def ConnInv (s : HookState) : Prop :=
  (s.pollArmed = true → s.isLive = false) ∧
  (s.reconnectTimeoutArmed = true → s.isLive = false) ∧
  (s.reconnectTimeoutArmed = true → s.eventSourceOpen = false)

/-- A sample ticker impact entry. -/
def sampleTicker : TickerImpact :=
  { ticker_or_etf := "SPY", direction_up_down_mixed := "down",
    mechanism := "tariff pressure", confidence_0_1 := 1,
    conservative_move := none, aggressive_move := none }

/-- A sample record with id 3 that carries a ticker entry. -/
def analysis3 : LatestAnalysis :=
  { id := 3, post_id := 30, post := none, created_at_utc := 100,
    relevance_score := 80, top_vertical := none, top_vertical_conf := none,
    verticals := [], tickers := [sampleTicker], base_case_summary := none,
    conservative_case_summary := none, aggressive_case_summary := none }

/-- A sample record with id 7 that carries a ticker entry. -/
def analysis7 : LatestAnalysis :=
  { id := 7, post_id := 70, post := none, created_at_utc := 200,
    relevance_score := 90, top_vertical := none, top_vertical_conf := none,
    verticals := [], tickers := [sampleTicker], base_case_summary := none,
    conservative_case_summary := none, aggressive_case_summary := none }

/-- A sample record with id 7 and no ticker entries. -/
def analysis7empty : LatestAnalysis :=
  { id := 7, post_id := 70, post := none, created_at_utc := 200,
    relevance_score := 90, top_vertical := none, top_vertical_conf := none,
    verticals := [], tickers := [], base_case_summary := none,
    conservative_case_summary := none, aggressive_case_summary := none }

/-- A sample push event with id 5 and no ticker entries. -/
def sseEvent5 : SSEAnalysisEvent :=
  { id := 5, post_id := 50, relevance_score := 60, top_vertical := none,
    top_vertical_conf := none, post := none, verticals := [], tickers := [],
    base_case_summary := none }

/-- A sample push event with id 3 and no ticker entries. -/
def sseEvent3 : SSEAnalysisEvent :=
  { id := 3, post_id := 30, relevance_score := 60, top_vertical := none,
    top_vertical_conf := none, post := none, verticals := [], tickers := [],
    base_case_summary := none }

/-- A sample push event with id 7 carrying a ticker entry. -/
def sseEvent7t : SSEAnalysisEvent :=
  { id := 7, post_id := 70, relevance_score := 90, top_vertical := none,
    top_vertical_conf := none, post := none, verticals := [],
    tickers := [sampleTicker], base_case_summary := none }

/-- A successful update: a pull completion carrying a record, or an
analysis push event; each carries the result of its conditional secondary
fetch and its receipt time. -/
inductive SuccessfulUpdate where
  | pull (data : LatestAnalysis) (sec : Option LatestAnalysis) (now : Nat)
  | push (data : SSEAnalysisEvent) (sec : Option LatestAnalysis) (now : Nat)

/-- Application of a successful update to the state, through the handler
the source uses for its kind. -/
def applyUpdate (s : HookState) : SuccessfulUpdate → HookState
  | .pull data sec now => fetchLatestState s (.success data) sec now
  | .push data sec now => onAnalysisFull s data now sec

/-- The record an update carries, as the view stores it. -/
def updateRecord : SuccessfulUpdate → LatestAnalysis
  | .pull data _ _ => data
  | .push data _ now => sseToLatest data now

/-- A fetchLatest completion touches only the reconciled view fields:
loading, connectivity, timer handles, the retry counter, the stream handle
and the mounted flag are untouched on every branch. -/
theorem fetchLatest_control_frame (s : HookState) (res : PullResult)
    (sec : Option LatestAnalysis) (now : Nat) :
    (fetchLatestState s res sec now).loading = s.loading ∧
    (fetchLatestState s res sec now).isLive = s.isLive ∧
    (fetchLatestState s res sec now).pollArmed = s.pollArmed ∧
    (fetchLatestState s res sec now).safetyPollArmed = s.safetyPollArmed ∧
    (fetchLatestState s res sec now).reconnectAttempts = s.reconnectAttempts ∧
    (fetchLatestState s res sec now).reconnectTimeoutArmed = s.reconnectTimeoutArmed ∧
    (fetchLatestState s res sec now).eventSourceOpen = s.eventSourceOpen ∧
    (fetchLatestState s res sec now).mounted = s.mounted := by
  unfold fetchLatestState fetchLatestRun
  refine ⟨?_, ?_, ?_, ?_, ?_, ?_, ?_, ?_⟩ <;>
    cases res <;> (repeat' split) <;> rfl

/-- An analysis push event touches only the reconciled view fields. -/
theorem onAnalysis_control_frame (s : HookState) (data : SSEAnalysisEvent)
    (now : Nat) (sec : Option LatestAnalysis) :
    (onAnalysisFull s data now sec).loading = s.loading ∧
    (onAnalysisFull s data now sec).isLive = s.isLive ∧
    (onAnalysisFull s data now sec).pollArmed = s.pollArmed ∧
    (onAnalysisFull s data now sec).safetyPollArmed = s.safetyPollArmed ∧
    (onAnalysisFull s data now sec).reconnectAttempts = s.reconnectAttempts ∧
    (onAnalysisFull s data now sec).reconnectTimeoutArmed = s.reconnectTimeoutArmed ∧
    (onAnalysisFull s data now sec).eventSourceOpen = s.eventSourceOpen ∧
    (onAnalysisFull s data now sec).mounted = s.mounted := by
  unfold onAnalysisFull onAnalysisRun onAnalysisThen
  refine ⟨?_, ?_, ?_, ?_, ?_, ?_, ?_, ?_⟩ <;>
    by_cases h : (sseToLatest data now).tickers = [] <;>
    cases sec <;> simp [h] <;> (try split) <;> simp

/-- On a successful pull the view always ends holding the pulled record,
with the error cleared and the receipt time stamped, on every branch of
the secondary-refresh rule. -/
theorem fetchLatest_success_view (s : HookState) (data : LatestAnalysis)
    (sec : Option LatestAnalysis) (now : Nat) :
    (fetchLatestState s (.success data) sec now).analysis = some data ∧
    (fetchLatestState s (.success data) sec now).error = none ∧
    (fetchLatestState s (.success data) sec now).lastUpdated = some now := by
  unfold fetchLatestState fetchLatestRun
  refine ⟨?_, ?_, ?_⟩ <;>
    (cases sec <;> by_cases h : data.tickers = [] <;> simp [h] <;> (try split) <;> rfl)

/-- On an analysis push the view always ends holding the pushed record,
with the error cleared and the receipt time stamped, on every branch of
the secondary-refresh rule. -/
theorem onAnalysis_success_view (s : HookState) (data : SSEAnalysisEvent)
    (now : Nat) (sec : Option LatestAnalysis) :
    (onAnalysisFull s data now sec).analysis = some (sseToLatest data now) ∧
    (onAnalysisFull s data now sec).error = none ∧
    (onAnalysisFull s data now sec).lastUpdated = some now := by
  unfold onAnalysisFull onAnalysisRun onAnalysisThen
  refine ⟨?_, ?_, ?_⟩ <;>
    (cases sec <;> by_cases h : (sseToLatest data now).tickers = [] <;> simp [h] <;>
      (try split) <;> rfl)

/-- C1: for every attempt index n the reconnect delay is min(30, 1 * 2^n)
time units of 1000 ms, yielding the sequence 1,2,4,8,16,30,30,... in
seconds, and the connected listener resets the attempt counter to 0 on
every receipt of the acknowledgement (the transition into Live). -/
theorem c1_backoff_delay_and_reset :
    (∀ n : Nat, getReconnectDelay n = 1000 * min 30 (2 ^ n)) ∧
    getReconnectDelay 0 = 1000 ∧ getReconnectDelay 1 = 2000 ∧
    getReconnectDelay 2 = 4000 ∧ getReconnectDelay 3 = 8000 ∧
    getReconnectDelay 4 = 16000 ∧ getReconnectDelay 5 = 30000 ∧
    getReconnectDelay 6 = 30000 ∧
    (∀ s : HookState,
      (onConnected s).reconnectAttempts = 0 ∧ (onConnected s).isLive = true) := by
  refine ⟨?_, by decide, by decide, by decide, by decide, by decide, by decide,
    by decide, fun s => ⟨rfl, rfl⟩⟩
  intro n
  unfold getReconnectDelay MAX_RECONNECT_DELAY INITIAL_RECONNECT_DELAY
  generalize 2 ^ n = k
  omega

/-- C5: on both the pull path and the push path, applying a record with an
empty ticker sequence issues exactly one secondary fetch, and applying a
record with a non-empty ticker sequence issues none and clears the
secondary immediately. -/
theorem c5_secondary_refresh_rule :
    ∀ (s : HookState) (data : LatestAnalysis) (ev : SSEAnalysisEvent)
      (sec : Option LatestAnalysis) (now : Nat),
    ((fetchLatestRun s (.success data) sec now).2
        = if data.tickers = [] then 1 else 0) ∧
    (data.tickers ≠ [] →
      (fetchLatestState s (.success data) sec now).lastImpactful = none) ∧
    ((onAnalysisRun s ev now sec).2 = if ev.tickers = [] then 1 else 0) ∧
    (ev.tickers ≠ [] → (onAnalysisFull s ev now sec).lastImpactful = none) := by
  intro s data ev sec now
  refine ⟨?_, ?_, ?_, ?_⟩
  · unfold fetchLatestRun
    by_cases h : data.tickers = [] <;> cases sec <;> simp [h] <;> split <;> rfl
  · intro h
    unfold fetchLatestState fetchLatestRun
    simp [h]
  · unfold onAnalysisRun onAnalysisThen sseToLatest
    by_cases h : ev.tickers = [] <;> simp [h]
  · intro h
    unfold onAnalysisFull onAnalysisRun sseToLatest
    simp [h]

/-- C5 witness: the rule evaluated on concrete records carrying a ticker
entry: no secondary fetch, secondary cleared, on both paths. -/
theorem c5_secondary_refresh_rule_witness :
    (fetchLatestState initialState (.success analysis7) none 0).lastImpactful = none ∧
    (onAnalysisFull initialState sseEvent7t 0 none).lastImpactful = none :=
  ⟨(c5_secondary_refresh_rule initialState analysis7 sseEvent7t none 0).2.1 (by decide),
   (c5_secondary_refresh_rule initialState analysis7 sseEvent7t none 0).2.2.2 (by decide)⟩

/-- C6: every failing pull (non-2xx non-404 response, transport failure,
malformed body) sets lastError to a message and leaves primary, secondary
and lastUpdated untouched. -/
theorem c6_pull_failure_sets_error_only :
    ∀ (s : HookState) (sec : Option LatestAnalysis) (now status : Nat)
      (statusText message : String),
    (fetchLatestState s (.httpError status statusText) sec now).error
        = some ("HTTP " ++ toString status ++ ": " ++ statusText) ∧
    (fetchLatestState s (.httpError status statusText) sec now).analysis = s.analysis ∧
    (fetchLatestState s (.httpError status statusText) sec now).lastImpactful
        = s.lastImpactful ∧
    (fetchLatestState s (.httpError status statusText) sec now).lastUpdated
        = s.lastUpdated ∧
    (fetchLatestState s (.networkError message) sec now).error = some message ∧
    (fetchLatestState s (.networkError message) sec now).analysis = s.analysis ∧
    (fetchLatestState s (.networkError message) sec now).lastImpactful
        = s.lastImpactful ∧
    (fetchLatestState s (.networkError message) sec now).lastUpdated = s.lastUpdated ∧
    (fetchLatestState s (.malformedBody message) sec now).error = some message ∧
    (fetchLatestState s (.malformedBody message) sec now).analysis = s.analysis ∧
    (fetchLatestState s (.malformedBody message) sec now).lastImpactful
        = s.lastImpactful ∧
    (fetchLatestState s (.malformedBody message) sec now).lastUpdated = s.lastUpdated :=
  fun _ _ _ _ _ _ =>
    ⟨rfl, rfl, rfl, rfl, rfl, rfl, rfl, rfl, rfl, rfl, rfl, rfl⟩

/-- C7: a 404 pull is Absent, not an error: it clears primary and
lastError; and a startup whose initial pull returns 404 ends with no
primary, no error, and the stream connection attempted. -/
theorem c7_notFound_is_absent :
    ∀ (s : HookState) (sec sec2 : Option LatestAnalysis) (now now2 : Nat),
    (fetchLatestState s .notFound sec now).analysis = none ∧
    (fetchLatestState s .notFound sec now).error = none ∧
    (initRun initialState .notFound sec2 now2 true).analysis = none ∧
    (initRun initialState .notFound sec2 now2 true).error = none ∧
    (initRun initialState .notFound sec2 now2 true).eventSourceOpen = true :=
  fun _ _ _ _ _ => ⟨rfl, rfl, rfl, rfl, rfl⟩

/-- C8: updates are applied in arrival order with no comparison against the
id already held: after any two successful updates the view holds the record
of the second one; in particular a concrete later update with a smaller id
overwrites a larger one. -/
theorem c8_last_arrival_wins :
    (∀ (s : HookState) (u1 u2 : SuccessfulUpdate),
      (applyUpdate (applyUpdate s u1) u2).analysis = some (updateRecord u2)) ∧
    (applyUpdate (applyUpdate initialState
        (.pull analysis7 none 0)) (.push sseEvent3 none 1000)).analysis
      = some (sseToLatest sseEvent3 1000) ∧
    (sseToLatest sseEvent3 1000).id < analysis7.id := by
  refine ⟨?_, rfl, by decide⟩
  intro s u1 u2
  cases u2 with
  | pull data sec now =>
      exact (fetchLatest_success_view (applyUpdate s u1) data sec now).1
  | push data sec now =>
      exact (onAnalysis_success_view (applyUpdate s u1) data now sec).1

/-- C10: applying Absent (a 404 pull) clears exactly primary and lastError
and nothing else; in particular a previously held secondary and the last
update stamp survive while primary becomes absent. -/
theorem c10_absent_clears_only_primary_and_error :
    (∀ (s : HookState) (sec : Option LatestAnalysis) (now : Nat),
      fetchLatestState s .notFound sec now = { s with analysis := none, error := none }) ∧
    (fetchLatestState
        { initialState with lastImpactful := some analysis3, lastUpdated := some 42 }
        .notFound none 50).lastImpactful = some analysis3 ∧
    (fetchLatestState
        { initialState with lastImpactful := some analysis3, lastUpdated := some 42 }
        .notFound none 50).lastUpdated = some 42 ∧
    (fetchLatestState
        { initialState with lastImpactful := some analysis3, lastUpdated := some 42 }
        .notFound none 50).analysis = none :=
  ⟨fun _ _ _ => rfl, rfl, rfl, rfl⟩

/-- C2: evaluation of the push path at a failing trace: after a push of
id 5 with no tickers whose secondary fetch returned the id 3 record, a
push of id 3 with no tickers whose secondary fetch returned nothing leaves
the view with primary and secondary both present and of equal id: the
completion attached to the push path's secondary fetch has no branch that
clears the stale secondary. -/
theorem c2_push_can_retain_stale_secondary :
    (onAnalysisFull
      (onAnalysisFull (initRun initialState .notFound none 0 true)
        sseEvent5 1000 (some analysis3))
      sseEvent3 2000 none).analysis = some (sseToLatest sseEvent3 2000) ∧
    (onAnalysisFull
      (onAnalysisFull (initRun initialState .notFound none 0 true)
        sseEvent5 1000 (some analysis3))
      sseEvent3 2000 none).lastImpactful = some analysis3 ∧
    (sseToLatest sseEvent3 2000).id = analysis3.id := by
  refine ⟨by decide, by decide, by decide⟩

/-- C9 counterexample: a pull that completes after teardown is not a no-op:
the mounted flag is down, yet the completion overwrites primary and stamps
lastUpdated, because fetchLatest does not consult the flag. -/
theorem c9_counterexample_late_pull_mutates :
    (teardownStep (initRun initialState .notFound none 0 true)).mounted = false ∧
    (teardownStep (initRun initialState .notFound none 0 true)).analysis = none ∧
    (fetchLatestState (teardownStep (initRun initialState .notFound none 0 true))
        (.success analysis7) none 5000).analysis = some analysis7 ∧
    (fetchLatestState (teardownStep (initRun initialState .notFound none 0 true))
        (.success analysis7) none 5000).lastUpdated = some 5000 := by
  refine ⟨rfl, rfl, by decide, by decide⟩

/-- C9 amended: the mounted flag guards only the continuation of the init
effect: when the controller is no longer mounted, the init completion does
not connect the stream, does not arm the safety net loop and leaves
loading set; fetch completions themselves do not consult the flag. -/
theorem c9_amended_mounted_guards_init_only :
    ∀ (s : HookState) (res : PullResult) (sec : Option LatestAnalysis)
      (now : Nat) (ok : Bool), s.mounted = false →
    (initRun s res sec now ok).eventSourceOpen = s.eventSourceOpen ∧
    (initRun s res sec now ok).safetyPollArmed = s.safetyPollArmed ∧
    (initRun s res sec now ok).loading = true := by
  intro s res sec now ok h
  have hf := fetchLatest_control_frame { s with loading := true } res sec now
  unfold initRun
  rw [if_neg]
  · exact ⟨hf.2.2.2.2.2.2.1, hf.2.2.2.1, hf.1⟩
  · rw [hf.2.2.2.2.2.2.2]
    simp [h]

/-- C9 amended witness: after teardown the init completion arms nothing. -/
theorem c9_amended_mounted_guards_init_only_witness :
    (teardownStep initialState).mounted = false ∧
    (initRun (teardownStep initialState) .notFound none 0 true).safetyPollArmed = false ∧
    (initRun (teardownStep initialState) .notFound none 0 true).eventSourceOpen = false :=
  ⟨rfl,
   ((c9_amended_mounted_guards_init_only (teardownStep initialState)
      .notFound none 0 true rfl).2.1).trans rfl,
   ((c9_amended_mounted_guards_init_only (teardownStep initialState)
      .notFound none 0 true rfl).1).trans rfl⟩

/-- C3: the init effect of a mounted controller arms the safety net loop;
every connectivity transition (connected, error, reconnect) and every fetch
or push application preserves it; only teardown disarms it; and its
callback is the same fetch sequence as the fallback loop's, fired at a
strictly longer period. -/
theorem c3_safety_net_lifetime :
    (∀ (s : HookState) (res : PullResult) (sec : Option LatestAnalysis)
       (now : Nat) (ok : Bool), s.mounted = true →
       (initRun s res sec now ok).safetyPollArmed = true) ∧
    (∀ s : HookState, (onConnected s).safetyPollArmed = s.safetyPollArmed) ∧
    (∀ s : HookState, (onSSEError s).safetyPollArmed = s.safetyPollArmed) ∧
    (∀ (s : HookState) (ok : Bool),
      (connectSSEStep s ok).safetyPollArmed = s.safetyPollArmed) ∧
    (∀ (s : HookState) (res : PullResult) (sec : Option LatestAnalysis) (now : Nat),
      (fetchLatestState s res sec now).safetyPollArmed = s.safetyPollArmed) ∧
    (∀ (s : HookState) (data : SSEAnalysisEvent) (now : Nat)
       (sec : Option LatestAnalysis),
      (onAnalysisFull s data now sec).safetyPollArmed = s.safetyPollArmed) ∧
    (∀ s : HookState, (teardownStep s).safetyPollArmed = false) ∧
    safetyTick = fallbackTick ∧
    POLL_INTERVAL < SAFETY_POLL_INTERVAL := by
  refine ⟨?_, fun s => rfl, fun s => rfl, ?_, ?_, ?_, fun s => rfl, rfl, by decide⟩
  · intro s res sec now ok h
    have hf := fetchLatest_control_frame { s with loading := true } res sec now
    unfold initRun
    rw [if_pos ((hf.2.2.2.2.2.2.2).trans h)]
  · intro s ok
    cases ok <;> rfl
  · intro s res sec now
    exact (fetchLatest_control_frame s res sec now).2.2.2.1
  · intro s data now sec
    exact (onAnalysis_control_frame s data now sec).2.2.2.1

/-- C3 witness: the init effect on the freshly mounted state arms the
safety net loop. -/
theorem c3_safety_net_lifetime_witness :
    (initRun initialState .notFound none 0 true).safetyPollArmed = true :=
  c3_safety_net_lifetime.1 initialState .notFound none 0 true rfl

/-- Control fields of the state the init effect leaves from the initial
state: no fallback polling, not live, no pending reconnect, the stream
handle reflecting whether the EventSource constructor succeeded, safety
net armed, still mounted. -/
theorem initRun_initial_control (res : PullResult) (sec : Option LatestAnalysis)
    (now : Nat) (ok : Bool) :
    (initRun initialState res sec now ok).pollArmed = !ok ∧
    (initRun initialState res sec now ok).isLive = false ∧
    (initRun initialState res sec now ok).reconnectTimeoutArmed = false ∧
    (initRun initialState res sec now ok).eventSourceOpen = ok ∧
    (initRun initialState res sec now ok).safetyPollArmed = true ∧
    (initRun initialState res sec now ok).mounted = true := by
  have hf := fetchLatest_control_frame { initialState with loading := true } res sec now
  have hm : (fetchLatestState { initialState with loading := true } res sec now).mounted
      = true := (hf.2.2.2.2.2.2.2).trans rfl
  unfold initRun
  rw [if_pos hm]
  cases ok with
  | false => exact ⟨rfl, (hf.2.1).trans rfl, rfl, rfl, rfl, hm⟩
  | true => exact ⟨(hf.2.2.1).trans rfl, (hf.2.1).trans rfl, rfl, rfl, rfl, hm⟩

/-- Every reachable state satisfies the connectivity invariant: fallback
polling implies not live, and a pending reconnect implies not live and a
closed stream handle. -/
theorem reachable_connInv (s : HookState) (h : Reachable s) : ConnInv s := by
  induction h with
  | start res sec now ok =>
      obtain ⟨h1, h2, h3, _, _, _⟩ := initRun_initial_control res sec now ok
      exact ⟨fun _ => h2, fun _ => h2, fun hx => absurd (h3.symm.trans hx) (by simp)⟩
  | @pull s res sec now hr ih =>
      have hf := fetchLatest_control_frame s res sec now
      unfold ConnInv at ih ⊢
      rw [hf.2.1, hf.2.2.1, hf.2.2.2.2.2.1, hf.2.2.2.2.2.2.1]
      exact ih
  | @connected s hr hES ih =>
      refine ⟨fun hx => by simp [onConnected] at hx, ?_, ?_⟩ <;> intro hx <;>
        exact absurd hES (by rw [ih.2.2 hx]; simp)
  | @analysisEv s data now sec hr hES ih =>
      have hf := onAnalysis_control_frame s data now sec
      unfold ConnInv at ih ⊢
      rw [hf.2.1, hf.2.2.1, hf.2.2.2.2.2.1, hf.2.2.2.2.2.2.1]
      exact ih
  | @sseErr s hr hES ih =>
      exact ⟨fun _ => rfl, fun _ => rfl, fun _ => rfl⟩
  | @reconnect s ok hr hto ih =>
      cases ok with
      | true =>
          exact ⟨fun hx => ih.1 hx, fun hx => by simp [connectSSEStep] at hx,
                 fun hx => by simp [connectSSEStep] at hx⟩
      | false =>
          exact ⟨fun _ => ih.2.1 hto, fun hx => by simp [connectSSEStep] at hx,
                 fun hx => by simp [connectSSEStep] at hx⟩
  | @teardown s hr ih =>
      exact ⟨fun hx => by simp [teardownStep] at hx,
             fun hx => by simp [teardownStep] at hx,
             fun hx => by simp [teardownStep] at hx⟩

/-- C4 counterexample: right after the init effect the controller is in
its lifetime (the state is reachable), connectivity is not Live, and yet
the fallback loop is not armed: polling starts only on an error signal,
never at startup, so armed-iff-not-Live fails while the first connection
attempt is in flight. -/
theorem c4_counterexample_connecting_without_polling :
    Reachable (initRun initialState .notFound none 0 true) ∧
    ¬ ((initRun initialState .notFound none 0 true).pollArmed = true ↔
       (initRun initialState .notFound none 0 true).isLive = false) :=
  ⟨Reachable.start .notFound none 0 true, by decide⟩

/-- C4 amended: in every reachable state the fallback loop is armed only
if connectivity is not Live; the connected handler disarms it in the same
tick it sets Live, and the error handler arms it in the same tick it
clears Live; but a state that is not Live with the loop disarmed does
occur, between a connection attempt and its acknowledgement. -/
theorem c4_amended_fallback_only_if_not_live :
    (∀ s : HookState, Reachable s → s.pollArmed = true → s.isLive = false) ∧
    (∀ s : HookState, (onConnected s).isLive = true ∧ (onConnected s).pollArmed = false) ∧
    (∀ s : HookState, (onSSEError s).isLive = false ∧ (onSSEError s).pollArmed = true) :=
  ⟨fun s h => (reachable_connInv s h).1, fun _ => ⟨rfl, rfl⟩, fun _ => ⟨rfl, rfl⟩⟩

/-- C4 amended witness: a reachable state with the fallback loop armed,
shown not live by the theorem. -/
theorem c4_amended_fallback_only_if_not_live_witness :
    (onSSEError (initRun initialState .notFound none 0 true)).isLive = false :=
  c4_amended_fallback_only_if_not_live.1
    (onSSEError (initRun initialState .notFound none 0 true))
    (Reachable.sseErr (Reachable.start .notFound none 0 true) rfl)
    rfl

end TrumpDump
